import Mathlib

/-!
Shallow embedding of the GPRQuizBot core (src/data.py, src/guess_conversation.py,
src/new_round_conversation.py, src/review_conversation.py).

Modelling conventions:
- Python `date` values are integers (days since an arbitrary epoch); `date`
  ordering is integer ordering and `timedelta(days = n)` is `+ n`.
- Instants (`datetime.timestamp()`) are integers (seconds since the epoch);
  `datetime.combine(d, t).timestamp()` is `d * 86400 + t` where `t` is the
  time of day in seconds (the local-timezone offset of CPython is a constant
  shift of every timestamp and is not load bearing for any claim, so it is
  taken to be zero).
- The TinyDB document store is modelled by its two `type` partitions: the
  round partition as a `List Round` (the `to_dict` / `fromisoformat`
  round-trip is the identity on the modelled fields), the guess partition as
  a `List Doc` of schemaless records, because the guess-store bugs hinge on
  exact field names.  A TinyDB test `where(k) == v` on a document that lacks
  the key `k` is `False` (TinyDB catches the `KeyError`).
- `async` functions are pure state-passing functions; fallible lookups
  (`KeyError` / `IndexError`) return `Option`.
-/

/-- `data.Round` (src/data.py lines 9-31). -/
structure Round where
  name : String
  start_date : Int
  duration_days : Int
deriving DecidableEq, Repr

/-- `Round.end_date` (src/data.py line 15): `start_date + timedelta(days = duration_days - 1)`. -/
def Round.end_date (r : Round) : Int :=
  r.start_date + (r.duration_days - 1)

/-- `Round.overlaps_with` (src/data.py line 19):
`self.start_date <= other.end_date() and other.start_date <= self.end_date()`. -/
def Round.overlaps_with (r other : Round) : Bool :=
  decide (r.start_date ≤ other.end_date) && decide (other.start_date ≤ r.end_date)

/-- Two rounds have intersecting inclusive `[start_date, end_date]` calendar
intervals: some day lies in both. -/
def roundsIntersect (a b : Round) : Prop :=
  ∃ d : Int, a.start_date ≤ d ∧ d ≤ a.end_date ∧ b.start_date ≤ d ∧ d ≤ b.end_date

/-- `data.save_round` (src/data.py lines 122-140): checks `overlaps_with`
against every existing round (`get_rounds`); on any overlap returns `False`
without touching the store, otherwise inserts and returns `True`.  The round
store is passed explicitly; the result pairs the returned bool with the new
store. -/
def save_round (round : Round) (store : List Round) : Bool × List Round :=
  if store.any (fun existing_round => round.overlaps_with existing_round) then
    (false, store)
  else
    (true, store ++ [round])

/-- Folding a sequence of `save_round` calls over a store (each call sees the
store left by the previous one). -/
def run_saves (rounds : List Round) (store : List Round) : List Round :=
  rounds.foldl (fun st r => (save_round r st).2) store

theorem save_round_overlap_example :
    save_round ⟨"B", 2, 2⟩ [⟨"A", 0, 5⟩] = (false, [⟨"A", 0, 5⟩]) := by
  decide

theorem save_round_ok_example :
    save_round ⟨"B", 5, 2⟩ [⟨"A", 0, 5⟩] = (true, [⟨"A", 0, 5⟩, ⟨"B", 5, 2⟩]) := by
  decide

/-! ## Game-day calendar (src/data.py lines 67-88) -/

/-- Modelled from the spec: the constant `first_clue_time` is referenced in
src/data.py (lines 80, 86, 87) but defined nowhere under src/; the spec (and
the docstrings of data.py) fix the daily cutoff at 06:00, so it is modelled as
6 AM, as seconds after midnight. -/
def first_clue_time : Int := 6 * 3600

/-- Seconds in a calendar day. -/
def secondsPerDay : Int := 86400

/-- `datetime.combine(d, t).timestamp()` for day number `d` and time of day
`t` in seconds. -/
def combine_timestamp (d t : Int) : Int :=
  d * secondsPerDay + t

/-- `data.get_game_day_timestamps` (src/data.py lines 67-88).  `target_date`
is a day number, `current_time` the optional time of day in seconds.  (In the
Python, `if current_time and ...` only distinguishes `None`: `datetime.time`
values are always truthy on Python 3.5+.) -/
def get_game_day_timestamps (target_date : Int) (current_time : Option Int) : Int × Int :=
  let start_date :=
    match current_time with
    | some ct => if ct < first_clue_time then target_date - 1 else target_date
    | none => target_date
  (combine_timestamp start_date first_clue_time,
   combine_timestamp (start_date + 1) first_clue_time)

/-- An instant `t` belongs to game-day `D` iff it lies in the half-open window
`[06:00 on D, 06:00 on D+1)` returned by `get_game_day_timestamps D none`
(spec section 3, "Game day"). -/
def belongs_to_game_day (t D : Int) : Prop :=
  (get_game_day_timestamps D none).1 ≤ t ∧ t < (get_game_day_timestamps D none).2

instance (t D : Int) : Decidable (belongs_to_game_day t D) := by
  unfold belongs_to_game_day
  infer_instance

/-! ## Schemaless guess documents (TinyDB model) -/

/-- A TinyDB field value as used by the guess records of this repository. -/
inductive Value where
  | str (s : String)
  | int (n : Int)
  | boolean (b : Bool)
  | null
deriving DecidableEq, Repr

/-- A schemaless document: an association list of field name to value. -/
abbrev Doc : Type := List (String × Value)

/-- Look a field up in a document. -/
def Doc.getField (d : Doc) (k : String) : Option Value :=
  (d.find? (fun kv => kv.1 == k)).map (fun kv => kv.2)

/-- Field lookup as a string; `none` when missing or not a string. -/
def Doc.getStr (d : Doc) (k : String) : Option String :=
  match d.getField k with
  | some (Value.str s) => some s
  | _ => none

/-- Field lookup as an integer; `none` when missing or not an integer. -/
def Doc.getInt (d : Doc) (k : String) : Option Int :=
  match d.getField k with
  | some (Value.int n) => some n
  | _ => none

/-- TinyDB `where(k) == v`: `False` when the key is missing. -/
def whereEq (d : Doc) (k : String) (v : Value) : Bool :=
  d.getField k == some v

/-- TinyDB `where(k) >= v` over integer fields: `False` when the key is
missing. -/
def whereGe (d : Doc) (k : String) (v : Int) : Bool :=
  match d.getInt k with
  | some n => decide (v ≤ n)
  | none => false

/-- TinyDB `where(k) <= v` over integer fields: `False` when the key is
missing. -/
def whereLe (d : Doc) (k : String) (v : Int) : Bool :=
  match d.getInt k with
  | some n => decide (n ≤ v)
  | none => false

/-- Set a field on a document (TinyDB `update`): replace when present,
append when absent. -/
def Doc.setField (d : Doc) (k : String) (v : Value) : Doc :=
  if d.any (fun kv => kv.1 == k) then
    d.map (fun kv => if kv.1 == k then (k, v) else kv)
  else
    d ++ [(k, v)]

/-- TinyDB `db.update(fields, cond)`: set every field of `fields` on every
document satisfying `cond`. -/
def db_update (fields : List (String × Value)) (cond : Doc → Bool) (store : List Doc) : List Doc :=
  store.map (fun d => if cond d then fields.foldl (fun d kv => d.setField kv.1 kv.2) d else d)

/-- TinyDB `db.get(cond)`: the first document satisfying `cond`, if any. -/
def db_get (cond : Doc → Bool) (store : List Doc) : Option Doc :=
  store.find? cond

/-! ## Python string helpers -/

/-- Python `str.lower()` (the guesses and answers of the claims are ASCII, so
per-character lowering is faithful). -/
def pyLower (s : String) : String :=
  String.mk (s.toList.map Char.toLower)

/-- Auxiliary contiguous-sublist test on character lists. -/
def charsContain (hay needle : List Char) : Bool :=
  match hay with
  | [] => needle.isEmpty
  | _ :: rest => needle.isPrefixOf hay || charsContain rest needle

/-- Python `needle in hay` on strings: contiguous substring test. -/
def pyInStr (needle hay : String) : Bool :=
  charsContain hay.toList needle.toList

/-- Python `s.replace(pat, "", 1)`: delete the first occurrence of `pat`,
used for stripping the leading command from `/guess <text>`. -/
def charsDropFirst (s pat : List Char) : List Char :=
  match s with
  | [] => []
  | c :: rest =>
    if pat.isPrefixOf s then s.drop pat.length
    else c :: charsDropFirst rest pat

/-- Python `s.replace(pat, "", 1)` on strings. -/
def pyReplaceFirst (s pat : String) : String :=
  String.mk (charsDropFirst s.toList pat.toList)

/-- Python `s.strip()` (ASCII whitespace suffices for the claims). -/
def pyStrip (s : String) : String :=
  s.trim

/-! ## Guess store (src/data.py lines 33-40, 142-200) -/

/-- `data.Guess` (src/data.py lines 33-40). -/
structure Guess where
  guesser_id : Int
  guesser_name : String
  guess_text : String
  artist_name_correct : Bool
  song_title_correct : Bool
  timestamp : Int
deriving DecidableEq, Repr

/-- The document inserted by `data.create_guess` (src/data.py lines 142-159):
note the field names `guesser_id` / `guess_text`, and the initially `None`
marking fields. -/
def create_guess_doc (guesser_id : Int) (guesser_name guess_text : String)
    (now_timestamp : Int) : Doc :=
  [("type", Value.str "guess"),
   ("guesser_id", Value.int guesser_id),
   ("guesser_name", Value.str guesser_name),
   ("guess_text", Value.str guess_text),
   ("timestamp", Value.int now_timestamp),
   ("artist_name_correct", Value.null),
   ("song_title_correct", Value.null)]

/-- `data.create_guess`: inserts the new unmarked guess document. -/
def create_guess (guesser_id : Int) (guesser_name guess_text : String)
    (now_timestamp : Int) (store : List Doc) : List Doc :=
  store ++ [create_guess_doc guesser_id guesser_name guess_text now_timestamp]

/-- `data.get_todays_guess` (src/data.py lines 161-181): computes the current
game-day window from the current date and time of day, then `db.get` on
`type == "guess" and guesser_id == id and start <= timestamp <= end` and
returns the `guess_text` field of the match.  (For a matching document that
lacked `guess_text` Python would raise `KeyError`; that is conflated with
`none`, which no claim distinguishes.) -/
def get_todays_guess (guesser_id : Int) (now_date now_time : Int)
    (store : List Doc) : Option String :=
  let w := get_game_day_timestamps now_date (some now_time)
  match db_get (fun d =>
      whereEq d "type" (Value.str "guess") &&
      whereEq d "guesser_id" (Value.int guesser_id) &&
      whereGe d "timestamp" w.1 &&
      whereLe d "timestamp" w.2) store with
  | some result => result.getStr "guess_text"
  | none => none

/-- The search condition of `data.marked_guesses_for_day` (src/data.py lines
105-110): `type == "guess" and timestamp >= start and timestamp <= end` —
inclusive at **both** ends. -/
def day_guess_query (start_timestamp end_timestamp : Int) (d : Doc) : Bool :=
  whereEq d "type" (Value.str "guess") &&
  whereGe d "timestamp" start_timestamp &&
  whereLe d "timestamp" end_timestamp

/-- The `Guess` built from one matching document in
`data.marked_guesses_for_day` (src/data.py lines 111-120): the marking fields
are recomputed as case-insensitive substring tests against the correct answer.
`none` models the `KeyError` on a document missing one of the read fields. -/
def doc_to_marked_guess (song_title artist_name : String) (d : Doc) : Option Guess :=
  match d.getInt "guesser_id", d.getStr "guesser_name",
        d.getStr "guess_text", d.getInt "timestamp" with
  | some gid, some gname, some gtext, some ts =>
    some { guesser_id := gid
           guesser_name := gname
           guess_text := gtext
           artist_name_correct := pyInStr (pyLower artist_name) (pyLower gtext)
           song_title_correct := pyInStr (pyLower song_title) (pyLower gtext)
           timestamp := ts }
  | _, _, _, _ => none

/-- Convert each document, failing when any single conversion fails. -/
def mapOption (f : α → Option β) : List α → Option (List β)
  | [] => some []
  | a :: as =>
    match f a, mapOption f as with
    | some b, some bs => some (b :: bs)
    | _, _ => none

/-- `data.marked_guesses_for_day` (src/data.py lines 90-120). -/
def marked_guesses_for_day (target_date : Int) (song_title artist_name : String)
    (store : List Doc) : Option (List Guess) :=
  let w := get_game_day_timestamps target_date none
  mapOption (doc_to_marked_guess song_title artist_name)
    (store.filter (day_guess_query w.1 w.2))

/-- `data.update_guesses_marking` (src/data.py lines 183-200): for each guess,
`db.update` the two marking fields on every document matching
`type == "guess" and guesser_id == g.guesser_id and guess_text == g.guess_text`. -/
def update_guesses_marking (guesses : List Guess) (store : List Doc) : List Doc :=
  guesses.foldl (fun st g =>
    db_update
      [("artist_name_correct", Value.boolean g.artist_name_correct),
       ("song_title_correct", Value.boolean g.song_title_correct)]
      (fun d =>
        whereEq d "type" (Value.str "guess") &&
        whereEq d "guesser_id" (Value.int g.guesser_id) &&
        whereEq d "guess_text" (Value.str g.guess_text))
      st) store

/-! ## /guess command (src/guess_conversation.py lines 23-62) -/

/-- The already-guessed check of `guess_conversation.guess_command` (lines
33-37): `db.get(where("user_id") == update.effective_user.id and
where("type") == "guess")`.  Note the field name `user_id` and the absence of
any timestamp condition. -/
def guess_command_existing_check (uid : Int) (store : List Doc) : Option Doc :=
  db_get (fun d =>
    whereEq d "user_id" (Value.int uid) &&
    whereEq d "type" (Value.str "guess")) store

/-- `guess_conversation.guess_command` together with
`record_and_respond_to_guess` (lines 23-62), as a pure transition on the guess
store.  When the check finds no document, the command strips the leading
`/guess ` and inserts via `data.create_guess`, replying that the guess was
recorded; otherwise it replies with the `guess` field of the found document
(`result["guess"]`; `none` models the `KeyError` when that field is absent).
The message forwarding to the guesses channel is a messaging-layer effect
outside the store. -/
def guess_command (uid : Int) (full_name message_text : String)
    (now_timestamp : Int) (store : List Doc) : Option (List Doc × String) :=
  match guess_command_existing_check uid store with
  | none =>
    let guess := pyReplaceFirst message_text "/guess "
    some (create_guess uid full_name guess now_timestamp store,
          "Your guess: \"" ++ guess ++ "\" has been recorded. Thanks for playing!")
  | some result =>
    (result.getStr "guess").map (fun guess =>
      (store, "You have already made a guess today. Your guess was: " ++ guess))

/-! ## Round-creation wizard (src/new_round_conversation.py) -/

/-- In `handle_confirm_create` (src/new_round_conversation.py line 98) the
condition is `if save_round(round_data):` with **no** `await`: `save_round` is
`async def`, so the expression is a coroutine object, which is truthy, and the
body of `save_round` never runs.  This constant is that truthiness. -/
def save_round_call_unawaited_truthy : Bool := true

/-- `new_round_conversation.handle_confirm_create` (lines 91-115) as a pure
transition: input text and the round store in, the store, the reply text and
whether the conversation ended out.  The session variable
`user_data["new_round"]` is set to `None` on every path and the handler always
ends, so it is not threaded through.  Because the `save_round` call is not
awaited (see `save_round_call_unawaited_truthy`), the store is never read or
written and the overlap branch is unreachable. -/
def handle_confirm_create (input_text : String) (store : List Round) :
    List Round × String × Bool :=
  if pyLower input_text = "y" then
    if save_round_call_unawaited_truthy then
      (store, "All done, the new round has been created.", true)
    else
      (store,
       "Unable to create round: the dates overlap with an existing round. " ++
       "Please try again with different dates using the /newround command.",
       true)
  else
    (store, "New round creation has been cancelled.", true)

/-! ## Review wizard (src/review_conversation.py) -/

/-- The review conversation states (src/review_conversation.py line 23),
plus the `ConversationHandler.END` terminal. -/
inductive ReviewState where
  | ROUND_NUMBER
  | DAY_NUMBER
  | ARTIST_NAME
  | SONG_TITLE
  | FIX_MARKING
  | REMARK_ARTIST_NAME
  | REMARK_SONG_TITLE
  | END
deriving DecidableEq, Repr

/-- `review_conversation.Review` (lines 15-20). -/
structure Review where
  artist_name : Option String
  song_title : Option String
  day_to_review : Option Int
deriving DecidableEq, Repr

/-- The `context.user_data` slots the review wizard uses. -/
structure ReviewUserData where
  current_review : Option Review
  rounds : List Round
  selected_round : Option Round
  round_days : List Int
  current_guesses : Option (List Guess)
  selected_guess_num : Option Int
deriving DecidableEq, Repr

/-- Python `int(s)`; the exact parse never matters to the claims (the
range check below rejects every parse result when the maximum is 0). -/
def python_int (s : String) : Option Int :=
  s.toInt?

/-- `review_conversation.parse_int_option` (lines 29-38): the parsed integer
when `1 <= num <= max_value`, else `None`. -/
def parse_int_option (input_text : String) (max_value : Int) : Option Int :=
  match python_int input_text with
  | some num => if 1 ≤ num ∧ num ≤ max_value then some num else none
  | none => none

/-- `review_conversation.get_days_for_round` (lines 25-27):
`[round.start_date + timedelta(days = x) for x in range(round.duration_days)]`. -/
def get_days_for_round (round : Round) : List Int :=
  (List.range round.duration_days.toNat).map (fun x => round.start_date + x)

/-- `review_conversation.handle_round_number` (lines 93-118): parse the
selection against `len(rounds)`; on `None` re-prompt and stay; otherwise store
the selected round and its day list and advance.  The outer `Option` models
the `IndexError` on `rounds[round_num - 1]` (unreachable: the parse bounds the
index). -/
def handle_round_number (input_text : String) (ud : ReviewUserData) :
    Option (ReviewUserData × ReviewState) :=
  match parse_int_option input_text ud.rounds.length with
  | none => some (ud, ReviewState.ROUND_NUMBER)
  | some round_num =>
    (ud.rounds[(round_num - 1).toNat]?).map (fun selected_round =>
      ({ ud with
           selected_round := some selected_round
           round_days := get_days_for_round selected_round },
       ReviewState.DAY_NUMBER))

/-- Replace the element at `i` (Python `lst[i] = ...` on a validated index);
`none` models `IndexError`. -/
def list_modify (l : List Guess) (i : Nat) (f : Guess → Guess) :
    Option (List Guess) :=
  match l[i]? with
  | some g => some (l.set i (f g))
  | none => none

/-- `review_conversation.handle_remark_artist_name` (lines 218-240) as a pure
transition on `(selected_guess_num, current_guesses)`.  Input is lowered; only
`y`/`n` is accepted, anything else re-prompts in place; `n` sets
`artist_name_correct` of the selected cached guess to `False`; both on `y` and
`n` the handler then reads the selected guess for the next prompt and advances
to `REMARK_SONG_TITLE`.  The prompts themselves are messaging-layer effects;
`none` models `IndexError` on an out-of-range selection. -/
def handle_remark_artist_name (input_text : String) (selected_guess_num : Int)
    (guesses : List Guess) : Option (List Guess × ReviewState) :=
  let t := pyLower input_text
  if t ≠ "y" ∧ t ≠ "n" then
    some (guesses, ReviewState.REMARK_ARTIST_NAME)
  else
    let guesses2 :=
      if t = "n" then
        list_modify guesses (selected_guess_num - 1).toNat
          (fun g => { g with artist_name_correct := false })
      else some guesses
    match guesses2 with
    | none => none
    | some gs =>
      match gs[(selected_guess_num - 1).toNat]? with
      | none => none
      | some _ => some (gs, ReviewState.REMARK_SONG_TITLE)

/-- `review_conversation.done_command` (lines 265-270): sets
`user_data["current_review"]` and `user_data["current_guesses"]` to `None`,
replies "Review completed." and ends.  It does **not** touch the document
store, which is threaded through unchanged. -/
def done_command (ud : ReviewUserData) (store : List Doc) :
    ReviewUserData × List Doc × String × ReviewState :=
  ({ ud with current_review := none, current_guesses := none },
   store, "Review completed.", ReviewState.END)

/-! ## Theorems -/

/-- C9: `overlaps_with` is symmetric for all rounds, and every round with
`duration_days ≥ 1` overlaps itself. -/
theorem overlaps_with_symm_refl (A B : Round)
    (hA : 1 ≤ A.duration_days) (_hB : 1 ≤ B.duration_days) :
    A.overlaps_with B = B.overlaps_with A ∧ A.overlaps_with A = true := by
  constructor
  · unfold Round.overlaps_with
    exact Bool.and_comm _ _
  · simp only [Round.overlaps_with, Round.end_date, Bool.and_eq_true, decide_eq_true_eq]
    omega

/-- Witness for C9 at concrete rounds. -/
theorem overlaps_with_symm_refl_witness :
    (Round.mk "A" 0 5).overlaps_with (Round.mk "B" 3 2)
      = (Round.mk "B" 3 2).overlaps_with (Round.mk "A" 0 5)
    ∧ (Round.mk "A" 0 5).overlaps_with (Round.mk "A" 0 5) = true :=
  overlaps_with_symm_refl (Round.mk "A" 0 5) (Round.mk "B" 3 2) (by decide) (by decide)

/-- C6: `get_game_day_timestamps` is a total pure function: for every date and
every optional time of day it returns a pair of instants, the end exactly one
day after the start. -/
theorem get_game_day_timestamps_total (d : Int) (ct : Option Int) :
    ∃ s e, get_game_day_timestamps d ct = (s, e) ∧ e = s + secondsPerDay := by
  refine ⟨(get_game_day_timestamps d ct).1, (get_game_day_timestamps d ct).2, rfl, ?_⟩
  unfold get_game_day_timestamps combine_timestamp
  cases ct with
  | none => ring
  | some t =>
    by_cases h : t < first_clue_time <;> simp only [h, if_true, if_false, reduceIte] <;> ring

/-- C10: with zero rounds in the store, the review wizard's round-selection
state rejects every input: `parse_int_option` with maximum 0 is `None` on all
strings, so `handle_round_number` re-prompts and stays in
`ROUND_NUMBER_STATE`, whatever the rest of the session holds. -/
theorem empty_rounds_reject_all_input (s : String) (cr : Option Review)
    (sr : Option Round) (rd : List Int) (cg : Option (List Guess)) (sg : Option Int) :
    parse_int_option s 0 = none ∧
    handle_round_number s (ReviewUserData.mk cr [] sr rd cg sg)
      = some (ReviewUserData.mk cr [] sr rd cg sg, ReviewState.ROUND_NUMBER) := by
  have hp : parse_int_option s 0 = none := by
    unfold parse_int_option
    cases python_int s with
    | none => rfl
    | some num =>
      have : ¬(1 ≤ num ∧ num ≤ 0) := by omega
      simp [this]
  refine ⟨hp, ?_⟩
  unfold handle_round_number
  simp [hp]

/-- C2 (divergence): in `handle_confirm_create` the `save_round` call is not
awaited, so for the input "y" the success reply is produced while the round
store is left untouched — whatever it holds, including when the session's
round overlaps an existing one; had the store call run, `save_round` on the
scenario round ("Spring Round", 2024-03-01 = epoch day 19783, 5 days) against
an empty store would have persisted it. -/
theorem handle_confirm_create_never_persists (store : List Round) :
    handle_confirm_create "y" store
      = (store, "All done, the new round has been created.", true)
    ∧ save_round (Round.mk "Spring Round" 19783 5) []
      = (true, [Round.mk "Spring Round" 19783 5]) := by
  constructor
  · rfl
  · decide

/-- C3 (divergence): `done_command` only clears the session slots and replies
"Review completed."; the document store comes back unchanged, even though
`update_guesses_marking` on the cached list (here one guess whose
`artist_name_correct` was corrected to false) would have changed it. -/
theorem done_command_does_not_persist_marking :
    done_command
        (ReviewUserData.mk (some (Review.mk (some "a") (some "t") (some 0)))
          [] none [] (some [Guess.mk 1 "Alice" "abc" false true 21600]) none)
        [create_guess_doc 1 "Alice" "abc" 21600]
      = (ReviewUserData.mk none [] none [] none none,
         [create_guess_doc 1 "Alice" "abc" 21600], "Review completed.", ReviewState.END)
    ∧ update_guesses_marking [Guess.mk 1 "Alice" "abc" false true 21600]
        [create_guess_doc 1 "Alice" "abc" 21600]
      ≠ [create_guess_doc 1 "Alice" "abc" 21600] := by
  constructor
  · rfl
  · decide

/-- C4 (divergence): with a stored guess by caller 1 inside the current
game-day window (day 0, window [21600, 108000]), `get_todays_guess` — the
check the spec mandates — finds it, but `guess_command`'s own check queries
the nonexistent field `user_id` and finds nothing, so the command inserts a
second guess for the same game day instead of replying with the existing
text. -/
theorem guess_command_misses_existing_guess :
    get_todays_guess 1 0 36000 [create_guess_doc 1 "Alice" "first guess" 30000]
      = some "first guess"
    ∧ guess_command_existing_check 1 [create_guess_doc 1 "Alice" "first guess" 30000]
      = none
    ∧ guess_command 1 "Alice" "/guess second guess" 40000
        [create_guess_doc 1 "Alice" "first guess" 30000]
      = some ([create_guess_doc 1 "Alice" "first guess" 30000,
               create_guess_doc 1 "Alice" "second guess" 40000],
              "Your guess: \"second guess\" has been recorded. Thanks for playing!") := by
  refine ⟨by decide, by decide, ?_⟩
  decide

/-- Intersecting inclusive calendar intervals imply `overlaps_with`. -/
theorem overlaps_of_roundsIntersect {a b : Round} (h : roundsIntersect a b) :
    a.overlaps_with b = true := by
  obtain ⟨d, h1, h2, h3, h4⟩ := h
  simp only [Round.overlaps_with, Round.end_date, Bool.and_eq_true, decide_eq_true_eq] at *
  omega

/-- `roundsIntersect` is symmetric. -/
theorem roundsIntersect_symm {a b : Round} (h : roundsIntersect a b) :
    roundsIntersect b a := by
  obtain ⟨d, h1, h2, h3, h4⟩ := h
  exact ⟨d, h3, h4, h1, h2⟩

/-- One `save_round` call preserves pairwise non-intersection of the store. -/
theorem save_round_preserves_pairwise (r : Round) (store : List Round)
    (h : List.Pairwise (fun a b => ¬ roundsIntersect a b) store) :
    List.Pairwise (fun a b => ¬ roundsIntersect a b) (save_round r store).2 := by
  unfold save_round
  by_cases hany : store.any (fun existing_round => r.overlaps_with existing_round)
  · simpa [hany] using h
  · have hall : ∀ e ∈ store, r.overlaps_with e = false := by
      intro e he
      by_contra hne
      exact hany (List.any_eq_true.mpr ⟨e, he, by simpa using hne⟩)
    simp only [hany, if_false, Bool.false_eq_true, reduceIte]
    rw [List.pairwise_append]
    refine ⟨h, List.pairwise_singleton _ _, ?_⟩
    intro a ha b hb
    have hb1 : b = r := by simpa using hb
    subst hb1
    intro hint
    have := overlaps_of_roundsIntersect (roundsIntersect_symm hint)
    rw [hall a ha] at this
    exact Bool.false_ne_true this

/-- Any fold of `save_round` calls preserves pairwise non-intersection. -/
theorem run_saves_pairwise (rs : List Round) (store : List Round)
    (h : List.Pairwise (fun a b => ¬ roundsIntersect a b) store) :
    List.Pairwise (fun a b => ¬ roundsIntersect a b) (run_saves rs store) := by
  induction rs generalizing store with
  | nil => simpa [run_saves] using h
  | cons r rs ih =>
    have : run_saves (r :: rs) store = run_saves rs (save_round r store).2 := rfl
    rw [this]
    exact ih _ (save_round_preserves_pairwise r store h)

/-- C1: `save_round r` persists `r` (appending it to the store) and reports
success exactly when `r` overlaps no existing round; in every other case it
reports failure and leaves the store unchanged; and starting from an empty
store, after any sequence of `save_round` calls no two persisted rounds have
intersecting inclusive calendar intervals. -/
theorem save_round_spec (r : Round) (store rs : List Round) :
    (save_round r store = (true, store ++ [r]) ↔
       ∀ e ∈ store, r.overlaps_with e = false)
    ∧ (save_round r store = (true, store ++ [r]) ∨ save_round r store = (false, store))
    ∧ List.Pairwise (fun a b => ¬ roundsIntersect a b) (run_saves rs []) := by
  refine ⟨?_, ?_, run_saves_pairwise rs [] (List.Pairwise.nil)⟩
  · constructor
    · intro h e he
      by_cases hany : store.any (fun existing_round => r.overlaps_with existing_round)
      · rw [save_round, if_pos hany] at h
        exact absurd (congrArg Prod.fst h) (by simp)
      · by_contra hne
        exact hany (List.any_eq_true.mpr ⟨e, he, by simpa using hne⟩)
    · intro hall
      have hany : store.any (fun existing_round => r.overlaps_with existing_round) = false := by
        rw [List.any_eq_false]
        intro e he
        simp [hall e he]
      rw [save_round, if_neg (by simp [hany])]
  · unfold save_round
    by_cases hany : store.any (fun existing_round => r.overlaps_with existing_round) <;>
      simp [hany]

/-- C5 (amended): an instant belongs to game-day `D` exactly when it lies in
the half-open window `[06:00 on D, 06:00 on D+1)`; a submission at 05:59 on
date `D` belongs to game-day `D-1` and one at 06:00 on `D` to game-day `D`;
but the day-window query of the guess store selects the documents whose
timestamp lies in the **closed** interval `[start, end]`, i.e. all guesses of
the game day plus any guess stamped exactly at the next game-day's 06:00
cutoff instant. -/
theorem game_day_window_spec (D t : Int) (d : Doc) :
    (belongs_to_game_day t D ↔
       combine_timestamp D first_clue_time ≤ t ∧
       t < combine_timestamp (D + 1) first_clue_time)
    ∧ (day_guess_query (get_game_day_timestamps D none).1
         (get_game_day_timestamps D none).2 d = true ↔
       d.getField "type" = some (Value.str "guess") ∧
       ∃ ts, d.getInt "timestamp" = some ts ∧
         combine_timestamp D first_clue_time ≤ ts ∧
         ts ≤ combine_timestamp (D + 1) first_clue_time)
    ∧ belongs_to_game_day (combine_timestamp D (5 * 3600 + 59 * 60)) (D - 1)
    ∧ belongs_to_game_day (combine_timestamp D first_clue_time) D := by
  refine ⟨Iff.rfl, ?_, ?_, ?_⟩
  · constructor
    · intro h
      simp only [day_guess_query, Bool.and_eq_true] at h
      obtain ⟨⟨h1, h2⟩, h3⟩ := h
      refine ⟨by simpa [whereEq] using h1, ?_⟩
      unfold whereGe at h2
      unfold whereLe at h3
      cases hts : d.getInt "timestamp" with
      | none => rw [hts] at h2; exact absurd h2 (by simp)
      | some n =>
        rw [hts] at h2 h3
        exact ⟨n, rfl, by simpa [get_game_day_timestamps] using h2,
               by simpa [get_game_day_timestamps] using h3⟩
    · rintro ⟨h1, ts, hts, hge, hle⟩
      simp [day_guess_query, whereEq, whereGe, whereLe, hts, h1,
            get_game_day_timestamps, hge, hle]
  · simp only [belongs_to_game_day, get_game_day_timestamps, combine_timestamp,
      secondsPerDay, first_clue_time]
    omega
  · simp only [belongs_to_game_day, get_game_day_timestamps, combine_timestamp,
      secondsPerDay, first_clue_time]
    omega

/-- C5 (counterexample): a guess stamped exactly at 108000 — 06:00 on day 1,
the end instant of game-day 0's window — is selected by the day-0 query of
`marked_guesses_for_day`, yet by the claimed half-open membership it belongs
to game-day 1, not 0. -/
theorem day_query_selects_next_day_cutoff :
    marked_guesses_for_day 0 "t" "a" [create_guess_doc 1 "Alice" "abc" 108000]
      = some [Guess.mk 1 "Alice" "abc" true false 108000]
    ∧ ¬ belongs_to_game_day 108000 0
    ∧ belongs_to_game_day 108000 1 := by
  refine ⟨by decide, by decide, by decide⟩

/-- Membership in a `mapOption` image comes from some source element. -/
theorem mapOption_mem {f : α → Option β} :
    ∀ {l : List α} {bs : List β} {b : β},
      mapOption f l = some bs → b ∈ bs → ∃ a ∈ l, f a = some b := by
  intro l
  induction l with
  | nil =>
    intro bs b hl hb
    rw [mapOption] at hl
    cases hl
    exact absurd hb (List.not_mem_nil b)
  | cons a as ih =>
    intro bs b hl hb
    rw [mapOption] at hl
    cases hfa : f a with
    | none => rw [hfa] at hl; exact absurd hl (by simp)
    | some fb =>
      cases hrec : mapOption f as with
      | none => rw [hfa, hrec] at hl; exact absurd hl (by simp)
      | some bs2 =>
        rw [hfa, hrec] at hl
        cases hl
        rcases List.mem_cons.mp hb with hb1 | hb2
        · exact ⟨a, List.mem_cons_self a as, hb1 ▸ hfa⟩
        · obtain ⟨a2, ha2, hfa2⟩ := ih hrec hb2
          exact ⟨a2, List.mem_cons_of_mem a ha2, hfa2⟩

/-- C7 (marking rule of the data layer): every guess returned by
`marked_guesses_for_day` has `artist_name_correct` true exactly when the
correct artist name occurs as a case-insensitive substring of the guess text,
and `song_title_correct` likewise for the song title. -/
theorem marked_guesses_marking_rule (D : Int) (title artist : String)
    (store : List Doc) (gs : List Guess) (g : Guess)
    (hgs : marked_guesses_for_day D title artist store = some gs) (hg : g ∈ gs) :
    g.artist_name_correct = pyInStr (pyLower artist) (pyLower g.guess_text)
    ∧ g.song_title_correct = pyInStr (pyLower title) (pyLower g.guess_text) := by
  unfold marked_guesses_for_day at hgs
  obtain ⟨d, _hd, hfd⟩ := mapOption_mem hgs hg
  unfold doc_to_marked_guess at hfd
  split at hfd
  · cases hfd
    exact ⟨rfl, rfl⟩
  · exact absurd hfd (by simp)

/-- Witness for C7: the spec's example guess text against the correct answer
"never gonna give you up" / "rick astley" (submitted at 21600, inside game-day
0). -/
theorem marked_guesses_marking_rule_witness :
    (Guess.mk 1 "Alice" "NEVER GONNA GIVE YOU UP BY RICK ASTLEY" true true 21600).artist_name_correct
      = pyInStr (pyLower "rick astley")
          (pyLower (Guess.mk 1 "Alice" "NEVER GONNA GIVE YOU UP BY RICK ASTLEY" true true 21600).guess_text)
    ∧ (Guess.mk 1 "Alice" "NEVER GONNA GIVE YOU UP BY RICK ASTLEY" true true 21600).song_title_correct
      = pyInStr (pyLower "never gonna give you up")
          (pyLower (Guess.mk 1 "Alice" "NEVER GONNA GIVE YOU UP BY RICK ASTLEY" true true 21600).guess_text) :=
  marked_guesses_marking_rule 0 "never gonna give you up" "rick astley"
    [create_guess_doc 1 "Alice" "NEVER GONNA GIVE YOU UP BY RICK ASTLEY" 21600]
    [Guess.mk 1 "Alice" "NEVER GONNA GIVE YOU UP BY RICK ASTLEY" true true 21600]
    (Guess.mk 1 "Alice" "NEVER GONNA GIVE YOU UP BY RICK ASTLEY" true true 21600)
    (by decide) (by decide)

/-- C8: in `RemarkArtist`, any input other than case-insensitive y/n leaves
the cached list untouched and stays in the same state; `y` leaves the list
unchanged and advances to `RemarkSongTitle`; `n` sets the selected cached
guess's `artist_name_correct` to false — leaving its `song_title_correct` and
every other guess exactly as they were, since only that one entry is
replaced — and advances to `RemarkSongTitle`. -/
theorem handle_remark_artist_name_spec (input : String) (num : Int)
    (guesses : List Guess) (h : (num - 1).toNat < guesses.length) :
    (pyLower input ≠ "y" ∧ pyLower input ≠ "n" →
       handle_remark_artist_name input num guesses
         = some (guesses, ReviewState.REMARK_ARTIST_NAME))
    ∧ (pyLower input = "y" →
       handle_remark_artist_name input num guesses
         = some (guesses, ReviewState.REMARK_SONG_TITLE))
    ∧ (pyLower input = "n" →
       ∃ gi, guesses[(num - 1).toNat]? = some gi ∧
         handle_remark_artist_name input num guesses
           = some (guesses.set (num - 1).toNat { gi with artist_name_correct := false },
                   ReviewState.REMARK_SONG_TITLE)) := by
  obtain ⟨gi, hgi⟩ : ∃ x, guesses[(num - 1).toNat]? = some x :=
    ⟨_, List.getElem?_eq_getElem h⟩
  refine ⟨?_, ?_, ?_⟩
  · intro hyn
    simp only [handle_remark_artist_name]
    rw [if_pos hyn]
  · intro hy
    have hnn : ¬ (pyLower input ≠ "y" ∧ pyLower input ≠ "n") := fun hc => hc.1 hy
    have hn : ¬ pyLower input = "n" := by rw [hy]; decide
    simp only [handle_remark_artist_name]
    rw [if_neg hnn, if_neg hn]
    simp only [hgi]
  · intro hn
    refine ⟨gi, hgi, ?_⟩
    have hnn : ¬ (pyLower input ≠ "y" ∧ pyLower input ≠ "n") := fun hc => hc.2 hn
    simp only [handle_remark_artist_name]
    rw [if_neg hnn, if_pos hn]
    unfold list_modify
    rw [hgi]
    simp only [List.getElem?_set_eq_of_lt _ h]

/-- Witness for C8 at a concrete in-range selection with uppercase input. -/
theorem handle_remark_artist_name_spec_witness :
    handle_remark_artist_name "Y" 1 [Guess.mk 1 "Alice" "abc" true true 0]
      = some ([Guess.mk 1 "Alice" "abc" true true 0], ReviewState.REMARK_SONG_TITLE) :=
  (handle_remark_artist_name_spec "Y" 1 [Guess.mk 1 "Alice" "abc" true true 0]
    (by decide)).2.1 (by decide)
